import Mathlib

/-!
Verification of the live execution event-stream reducer of the MetaFlow
dashboard frontend, shallowly embedded from
src/frontend/src/hooks/useWebsocket.ts (handleEvent, onopen, onclose,
onmessage) and the zustand store in src/frontend/src/api/sdk.ts
(useWorkflowStore: setStatus, setProgress, updateAgent, addLog, setResults,
updatePartialResults, setConnected).

JavaScript conventions used by the embedding:
  - a field that may be absent or undefined is an Option;
  - JS truthiness on an optional number (`if (payload.percent_complete)`)
    is false for the absent field and for 0;
  - JS truthiness on an optional string (`if (payload.agent_id)`) is false
    for the absent field and for the empty string;
  - a JS object used as a map (`agents`, `partialResults`,
    `data_extracted`) is an association list with unique keys; the spread
    update `\x7b...m, [k]: v\x7d` replaces the value in place when the key
    exists and appends the key otherwise;
  - an undefined value used as an object key (`agents[undefined]`) is
    coerced to the string "undefined".
-/

namespace MetaFlow

/-- Dynamic (JSON-like) values carried opaquely by payload fields the
reducer never inspects: `data_extracted` values, `results`. An object is a
chain of objField entries ending in objEmpty (so
`\x7bsummary: "done"\x7d` is `objField "summary" (str "done") objEmpty`). -/
inductive JsValue where
  | null : JsValue
  | bool : Bool → JsValue
  | num : Int → JsValue
  | str : String → JsValue
  | objEmpty : JsValue
  | objField : String → JsValue → JsValue → JsValue
deriving DecidableEq, Repr

/-- Agent record, from interface Agent in sdk.ts. String-valued fields
that JS can leave undefined are Options. -/
structure Agent where
  id : String
  name : Option String
  role : Option String
  status : Option String
  thought : Option String
  lastToolCall : Option String
  output : Option String
  logs : List String
deriving DecidableEq, Repr

/-- A `Partial<Agent>` object literal as passed to updateAgent: the outer
Option records whether the key is present in the literal, the inner Option
is the (possibly undefined) JS value. `logs` never appears in any literal
in handleEvent. -/
structure AgentUpdate where
  name : Option (Option String) := none
  role : Option (Option String) := none
  status : Option (Option String) := none
  thought : Option (Option String) := none
  lastToolCall : Option (Option String) := none
  output : Option (Option String) := none
deriving DecidableEq, Repr

/-- Event payload: one record of all fields read by handleEvent, each
optional, as the payloads are untyped (`event: any`). -/
structure Payload where
  status : Option String := none
  percent_complete : Option Int := none
  agent_id : Option String := none
  agent_name : Option String := none
  role : Option String := none
  thought : Option String := none
  tool_name : Option String := none
  data_extracted : Option (List (String × JsValue)) := none
  output : Option String := none
  results : Option JsValue := none
deriving DecidableEq, Repr

/-- Event envelope (wire shape of section 6 of the design; handleEvent
reads only `type` and `payload`). -/
structure Envelope where
  id : String := ""
  workflow_id : String := ""
  timestamp : String := ""
  type : String
  payload : Payload
deriving DecidableEq, Repr

/-- WorkflowState of the zustand store in sdk.ts. `status` is an Option
because setStatus stores `event.payload.status` verbatim, which JS allows
to be undefined; `results` is `null` (none) until set. -/
structure WorkflowState where
  workflowId : Option String
  status : Option String
  progress : Int
  agents : List (String × Agent)
  logs : List Envelope
  results : Option JsValue
  partialResults : List (String × JsValue)
  connected : Bool
deriving DecidableEq, Repr

/-- JS object read `m[k]` (keys are unique in a JS object, so the first
match is the only one). -/
def objGet {α : Type} : List (String × α) → String → Option α
  | [], _ => none
  | p :: m, k => if p.1 = k then some p.2 else objGet m k

/-- JS object spread update `\x7b...m, [k]: v\x7d`: an existing key keeps
its position and gets the new value, an absent key is appended at the
end. -/
def objSet {α : Type} : List (String × α) → String → α → List (String × α)
  | [], k, v => [(k, v)]
  | p :: m, k, v => if p.1 = k then (k, v) :: m else p :: objSet m k v

/-- The initial store state in sdk.ts. -/
def initialState : WorkflowState :=
  { workflowId := none
    status := some "idle"
    progress := 0
    agents := []
    logs := []
    results := none
    partialResults := []
    connected := false }

/-- setStatus of the store: `set(\x7b status \x7d)`. -/
def setStatus (s : WorkflowState) (st : Option String) : WorkflowState :=
  { s with status := st }

/-- setProgress of the store. -/
def setProgress (s : WorkflowState) (p : Int) : WorkflowState :=
  { s with progress := p }

/-- The placeholder agent built by updateAgent when `agentId` is not yet
in the map. -/
def defaultAgent (agentId : String) : Agent :=
  { id := agentId
    name := some "Unknown Agent"
    role := some "Worker"
    status := some "idle"
    thought := none
    lastToolCall := none
    output := none
    logs := [] }

/-- `\x7b ...currentAgent, ...update \x7d`: fields whose key the update
literal carries are overwritten (possibly with undefined), the rest kept. -/
def Agent.applyUpdate (a : Agent) (u : AgentUpdate) : Agent :=
  { a with
    name := u.name.getD a.name
    role := u.role.getD a.role
    status := u.status.getD a.status
    thought := u.thought.getD a.thought
    lastToolCall := u.lastToolCall.getD a.lastToolCall
    output := u.output.getD a.output }

/-- updateAgent of the store. -/
def updateAgent (s : WorkflowState) (agentId : String) (u : AgentUpdate) :
    WorkflowState :=
  let currentAgent := (objGet s.agents agentId).getD (defaultAgent agentId)
  { s with agents := objSet s.agents agentId (currentAgent.applyUpdate u) }

/-- addLog of the store: `logs: [...state.logs, log]`. -/
def addLog (s : WorkflowState) (e : Envelope) : WorkflowState :=
  { s with logs := s.logs ++ [e] }

/-- setResults of the store. -/
def setResults (s : WorkflowState) (r : Option JsValue) : WorkflowState :=
  { s with results := r }

/-- updatePartialResults of the store. -/
def updatePartialResults (s : WorkflowState) (k : String) (v : JsValue) :
    WorkflowState :=
  { s with partialResults := objSet s.partialResults k v }

/-- setConnected of the store. -/
def setConnected (s : WorkflowState) (b : Bool) : WorkflowState :=
  { s with connected := b }

/-- The `Object.entries(event.payload.data_extracted).forEach(([key, value])
=> updatePartialResults(key, value))` loop of the tool_result case. -/
def applyDataExtracted (st : WorkflowState)
    (kvs : List (String × JsValue)) : WorkflowState :=
  kvs.foldl (fun st kv => updatePartialResults st kv.1 kv.2) st

/-- JS truthiness of a possibly-absent number. -/
def truthyNum : Option Int → Bool
  | some n => n ≠ 0
  | none => false

/-- JS truthiness of a possibly-absent string. -/
def truthyStr : Option String → Bool
  | some s => s ≠ ""
  | none => false

/-- An undefined JS value used as an object key is coerced to the string
"undefined". -/
def jsKey : Option String → String
  | some s => s
  | none => "undefined"

/-- handleEvent of useWebsocket.ts: addLog first, then the switch on
`event.type`. -/
def handleEvent (state : WorkflowState) (event : Envelope) : WorkflowState :=
  let state := addLog state event
  if event.type = "status_change" then
    let state := setStatus state event.payload.status
    if truthyNum event.payload.percent_complete then
      setProgress state (event.payload.percent_complete.getD 0)
    else state
  else if event.type = "agent_start" then
    updateAgent state (jsKey event.payload.agent_id)
      { name := some event.payload.agent_name
        role := some event.payload.role
        status := some (some "running") }
  else if event.type = "agent_thinking" then
    updateAgent state (jsKey event.payload.agent_id)
      { status := some (some "thinking")
        thought := some event.payload.thought }
  else if event.type = "tool_call" then
    updateAgent state (jsKey event.payload.agent_id)
      { lastToolCall := some event.payload.tool_name }
  else if event.type = "tool_result" then
    match event.payload.data_extracted with
    | some kvs => applyDataExtracted state kvs
    | none => state
  else if event.type = "agent_complete" then
    updateAgent state (jsKey event.payload.agent_id)
      { status := some (some "success")
        output := some event.payload.output }
  else if event.type = "workflow_complete" then
    setResults (setStatus state (some "completed")) event.payload.results
  else if event.type = "error" then
    if truthyStr event.payload.agent_id then
      updateAgent state (jsKey event.payload.agent_id)
        { status := some (some "failed") }
    else state
  else state

/-- `ws.current.onopen` of useWebsocket.ts. -/
def onopen (s : WorkflowState) : WorkflowState := setConnected s true

/-- `ws.current.onclose` of useWebsocket.ts. -/
def onclose (s : WorkflowState) : WorkflowState := setConnected s false

/-- `ws.current.onmessage` of useWebsocket.ts, given the result of the
JSON.parse attempt: a decoded envelope is handed to handleEvent; a decode
failure is only logged to the console and the state is untouched. -/
def onmessage (s : WorkflowState) (decoded : Option Envelope) :
    WorkflowState :=
  match decoded with
  | some e => handleEvent s e
  | none => s

/-- The closed set of event type tags the switch in handleEvent declares. -/
def declaredEventTypes : List String :=
  ["status_change", "agent_start", "agent_thinking", "tool_call",
   "tool_result", "agent_complete", "workflow_complete", "error"]

/-- The declared workflow status enum of WorkflowState in sdk.ts. -/
def workflowStatusValues : List String :=
  ["idle", "initiated", "running", "completed", "failed", "paused"]

/-- Last-occurrence-wins lookup in a key/value list: the value the forEach
over Object.entries leaves for a key, when the key occurs. -/
def lastVal {α : Type} : List (String × α) → String → Option α
  | [], _ => none
  | kv :: rest, k =>
    match lastVal rest k with
    | some v => some v
    | none => if kv.1 = k then some kv.2 else none

/-- Fold of objSet updates over a key/value list. -/
def dataFold {α : Type} (m kvs : List (String × α)) : List (String × α) :=
  kvs.foldl (fun m kv => objSet m kv.1 kv.2) m

theorem objGet_objSet {α : Type} :
    ∀ (m : List (String × α)) (k k' : String) (v : α),
      objGet (objSet m k v) k' = if k = k' then some v else objGet m k'
  | [], k, k', v => by
    by_cases hk : k = k' <;> simp [objSet, objGet, hk]
  | p :: m, k, k', v => by
    by_cases hp : p.1 = k
    · by_cases hk : k = k'
      · simp [objSet, objGet, hp, hk]
      · have hp' : ¬p.1 = k' := by rw [hp]; exact hk
        simp [objSet, objGet, hp, hk, hp']
    · by_cases hp' : p.1 = k'
      · have hk : ¬k = k' := by
          intro hc
          exact hp (by rw [hc]; exact hp')
        simp only [objSet, if_neg hp]
        simp [objGet, hp', hk]
      · simp [objSet, objGet, hp, hp', objGet_objSet m k k' v]

theorem applyDataExtracted_eq (st : WorkflowState)
    (kvs : List (String × JsValue)) :
    applyDataExtracted st kvs =
      { st with partialResults := dataFold st.partialResults kvs } := by
  induction kvs generalizing st with
  | nil => rfl
  | cons kv kvs ih =>
    show applyDataExtracted (updatePartialResults st kv.1 kv.2) kvs = _
    rw [ih]
    rfl

theorem objGet_dataFold {α : Type} (kvs m : List (String × α))
    (k : String) :
    objGet (dataFold m kvs) k =
      match lastVal kvs k with
      | some v => some v
      | none => objGet m k := by
  induction kvs generalizing m with
  | nil => rfl
  | cons kv kvs ih =>
    show objGet (dataFold (objSet m kv.1 kv.2) kvs) k = _
    rw [ih]
    cases h : lastVal kvs k with
    | some v => simp [lastVal, h]
    | none =>
      simp only [lastVal, h, objGet_objSet]
      by_cases hk : kv.1 = k <;> simp [hk]

/-- Scenario A envelope: status_change with status "running" and
percent_complete 25. -/
def scenarioAEnvelope : Envelope :=
  { type := "status_change"
    payload := { status := some "running", percent_complete := some 25 } }

/-- A status_change envelope whose percent_complete is present with value
0 (falsy in JS). -/
def percentZeroEnvelope : Envelope :=
  { type := "status_change"
    payload := { status := some "paused", percent_complete := some 0 } }

/-- A status_change envelope whose status is the string "bogus", outside
the declared workflow status enum. -/
def statusBogusEnvelope : Envelope :=
  { type := "status_change", payload := { status := some "bogus" } }

/-- A status_change envelope with no status field at all. -/
def statusMissingEnvelope : Envelope :=
  { type := "status_change", payload := {} }

/-- A workflow_complete envelope with results \x7bsummary: "done"\x7d. -/
def workflowCompleteDone : Envelope :=
  { type := "workflow_complete"
    payload := { results := some (JsValue.objField "summary"
      (JsValue.str "done") JsValue.objEmpty) } }

/-- A second workflow_complete envelope with results "other". -/
def workflowCompleteOther : Envelope :=
  { type := "workflow_complete"
    payload := { results := some (JsValue.str "other") } }

/-- An envelope whose type tag is outside the declared set. -/
def unknownTypeEnvelope : Envelope :=
  { type := "heartbeat", payload := {} }

/-- C1 counterexample input: after Scenario A has set progress to 25,
a status_change carrying percent_complete 0 leaves progress at 25: the
truthiness test `if (event.payload.percent_complete)` skips the
setProgress call for the value 0, refuting the claim that a present
percent_complete always lands in progress. -/
theorem c1_percent_zero_counterexample :
    percentZeroEnvelope.type = "status_change" ∧
    percentZeroEnvelope.payload.percent_complete = some 0 ∧
    (handleEvent (handleEvent initialState scenarioAEnvelope)
      percentZeroEnvelope).progress ≠ 0 ∧
    (handleEvent (handleEvent initialState scenarioAEnvelope)
      percentZeroEnvelope).progress = 25 := by
  refine ⟨rfl, rfl, ?_, ?_⟩ <;> decide

/-- C1 (amended): a status_change envelope stores the payload's status
verbatim, and stores percent_complete into progress exactly when
percent_complete is present and nonzero (JS truthiness); when it is
absent or 0, progress is left unchanged. -/
theorem c1_status_change_effect (s : WorkflowState) (e : Envelope)
    (h : e.type = "status_change") :
    (handleEvent s e).status = e.payload.status ∧
    (handleEvent s e).progress =
      (match e.payload.percent_complete with
       | some n => if n = 0 then s.progress else n
       | none => s.progress) := by
  cases hpc : e.payload.percent_complete with
  | none =>
    simp [handleEvent, h, hpc, truthyNum, addLog, setStatus, setProgress]
  | some n =>
    by_cases hn : n = 0 <;>
      simp [handleEvent, h, hpc, hn, truthyNum, addLog, setStatus,
        setProgress]

/-- Witness for C1 at Scenario A: from the initial state, status becomes
"running" and progress 25. -/
theorem c1_status_change_effect_witness :
    (handleEvent initialState scenarioAEnvelope).status = some "running" ∧
    (handleEvent initialState scenarioAEnvelope).progress = 25 := by
  have h := c1_status_change_effect initialState scenarioAEnvelope rfl
  simpa [scenarioAEnvelope] using h

/-- C2 counterexample input: a first workflow_complete sets results to a
non-null value, and a second workflow_complete alters it again — results
is not write-once under the reducer. -/
theorem c2_results_overwrite_counterexample :
    (handleEvent initialState workflowCompleteDone).results ≠ none ∧
    (handleEvent (handleEvent initialState workflowCompleteDone)
        workflowCompleteOther).results ≠
      (handleEvent initialState workflowCompleteDone).results := by
  refine ⟨?_, ?_⟩ <;> decide

/-- C2 (amended): a workflow_complete envelope sets status to "completed"
and results to the payload's results; no envelope of any other type
alters results, but a later workflow_complete envelope overwrites it. -/
theorem c2_workflow_complete_effect (s : WorkflowState) (e : Envelope) :
    (e.type = "workflow_complete" →
      (handleEvent s e).status = some "completed" ∧
      (handleEvent s e).results = e.payload.results) ∧
    (¬e.type = "workflow_complete" →
      (handleEvent s e).results = s.results) := by
  constructor
  · intro h
    simp [handleEvent, h, addLog, setStatus, setResults]
  · intro h
    unfold handleEvent
    repeat' split
    all_goals
      simp_all [addLog, setStatus, setProgress, updateAgent, setResults,
        updatePartialResults, applyDataExtracted_eq]

/-- Witness for C2 at Scenario E: from the initial state,
workflow_complete with results \x7bsummary: "done"\x7d yields status
"completed" and those results. -/
theorem c2_workflow_complete_effect_witness :
    (handleEvent initialState workflowCompleteDone).status =
      some "completed" ∧
    (handleEvent initialState workflowCompleteDone).results =
      some (JsValue.objField "summary" (JsValue.str "done")
        JsValue.objEmpty) :=
  (c2_workflow_complete_effect initialState workflowCompleteDone).1 rfl

/-- C3: an envelope whose type is outside the declared set changes the
snapshot only by appending itself to the log, and the log append happens
for every processed envelope of every type. -/
theorem c3_unknown_type_frame (s : WorkflowState) (e : Envelope)
    (h : e.type ∉ declaredEventTypes) :
    handleEvent s e = { s with logs := s.logs ++ [e] } ∧
    ∀ (s' : WorkflowState) (e' : Envelope),
      (handleEvent s' e').logs = s'.logs ++ [e'] := by
  constructor
  · obtain ⟨h1, h2, h3, h4, h5, h6, h7, h8⟩ :
        ¬e.type = "status_change" ∧ ¬e.type = "agent_start" ∧
        ¬e.type = "agent_thinking" ∧ ¬e.type = "tool_call" ∧
        ¬e.type = "tool_result" ∧ ¬e.type = "agent_complete" ∧
        ¬e.type = "workflow_complete" ∧ ¬e.type = "error" := by
      simpa [declaredEventTypes] using h
    simp [handleEvent, h1, h2, h3, h4, h5, h6, h7, h8, addLog]
  · intro s' e'
    unfold handleEvent
    repeat' split
    all_goals
      simp [addLog, setStatus, setProgress, updateAgent, setResults,
        updatePartialResults, applyDataExtracted_eq]

/-- Witness for C3 at the unknown type "heartbeat": only the log grows. -/
theorem c3_unknown_type_frame_witness :
    unknownTypeEnvelope.type ∉ declaredEventTypes ∧
    handleEvent initialState unknownTypeEnvelope =
      { initialState with logs := [unknownTypeEnvelope] } :=
  ⟨by decide,
    (c3_unknown_type_frame initialState unknownTypeEnvelope (by decide)).1⟩

/-- C9: setStatus stores the status_change payload's status verbatim, with
no validation against the declared enum: the string "bogus" (not a member
of the enum) ends up in the snapshot's status, and a missing status field
ends up as an undefined (none) status. -/
theorem c9_status_passthrough (s : WorkflowState) (e : Envelope)
    (h : e.type = "status_change") :
    (handleEvent s e).status = e.payload.status ∧
    ("bogus" ∉ workflowStatusValues ∧
      (handleEvent initialState statusBogusEnvelope).status =
        some "bogus" ∧
      (handleEvent initialState statusMissingEnvelope).status = none) := by
  constructor
  · cases hpc : e.payload.percent_complete with
    | none =>
      simp [handleEvent, h, hpc, truthyNum, addLog, setStatus, setProgress]
    | some n =>
      by_cases hn : n = 0 <;>
        simp [handleEvent, h, hpc, hn, truthyNum, addLog, setStatus,
          setProgress]
  · exact ⟨by decide, by decide, by decide⟩

/-- Witness for C9 at the "bogus" status_change from the initial state. -/
theorem c9_status_passthrough_witness :
    (handleEvent initialState statusBogusEnvelope).status =
      statusBogusEnvelope.payload.status :=
  (c9_status_passthrough initialState statusBogusEnvelope rfl).1

/-- C6: an inbound raw message that fails to decode as an envelope is
discarded after a console log: the snapshot is returned unchanged in every
field, and handleEvent is not invoked. -/
theorem c6_decode_failure_noop (s : WorkflowState) : onmessage s none = s :=
  rfl

/-- C8: transport open and close touch only the connected flag: after any
sequence of reduced envelopes, onopen yields the same snapshot with
connected set to true, and onclose the same snapshot with connected set to
false; status, progress, agents, logs, partialResults, results and
workflowId are unchanged. -/
theorem c8_connectivity_frame (es : List Envelope) (s0 : WorkflowState) :
    onopen (es.foldl handleEvent s0) =
      { es.foldl handleEvent s0 with connected := true } ∧
    onclose (es.foldl handleEvent s0) =
      { es.foldl handleEvent s0 with connected := false } :=
  ⟨rfl, rfl⟩

/-- An error envelope whose agent_id is present but is the empty string
(falsy in JS). -/
def errorEmptyAgentId : Envelope :=
  { type := "error", payload := { agent_id := some "" } }

/-- An error envelope naming agent "a1". -/
def errorAgentA1 : Envelope :=
  { type := "error", payload := { agent_id := some "a1" } }

/-- A tool_call envelope from a previously-unseen agent "a1". -/
def toolCallEnvelope : Envelope :=
  { type := "tool_call"
    payload := { agent_id := some "a1", tool_name := some "search" } }

/-- The agent_start envelope of Scenario B. -/
def agentStartEnvelope : Envelope :=
  { type := "agent_start"
    payload := { agent_id := some "a1", agent_name := some "ResearchAgent",
                 role := some "Researcher" } }

/-- The agent record produced by agentStartEnvelope from an empty map. -/
def researchAgentRecord : Agent :=
  { id := "a1", name := some "ResearchAgent", role := some "Researcher",
    status := some "running", thought := none, lastToolCall := none,
    output := none, logs := [] }

/-- tool_result envelopes writing "topic" to "A" and then to "B"
(Scenario D). -/
def toolResultTopicA : Envelope :=
  { type := "tool_result"
    payload := { agent_id := some "a1"
                 data_extracted := some [("topic", JsValue.str "A")] } }

/-- Second tool_result envelope of Scenario D. -/
def toolResultTopicB : Envelope :=
  { type := "tool_result"
    payload := { agent_id := some "a1"
                 data_extracted := some [("topic", JsValue.str "B")] } }

/-- C4 counterexample input: an error envelope whose agent_id is present
(the empty string) and not yet in the agents map creates no record at
all — the truthiness test `if (event.payload.agent_id)` rejects the empty
string, so no placeholder is auto-created for it. -/
theorem c4_error_empty_agent_id_counterexample :
    errorEmptyAgentId.type = "error" ∧
    errorEmptyAgentId.payload.agent_id = some "" ∧
    objGet initialState.agents "" = none ∧
    (handleEvent initialState errorEmptyAgentId).agents = [] := by
  refine ⟨rfl, rfl, rfl, ?_⟩
  decide

/-- C4 (amended): an agent_start, agent_thinking, tool_call or
agent_complete envelope whose agent_id names an unseen agent auto-creates
the record (placeholder name "Unknown Agent", role "Worker", status
"idle") and then applies the event's field updates, for any present
agent_id; an error envelope does so only when its agent_id is non-empty
(JS-truthy) — an error envelope with an empty agent_id creates nothing. -/
theorem c4_auto_create_placeholder (s : WorkflowState) (e : Envelope)
    (a : String) (hid : e.payload.agent_id = some a)
    (hnew : objGet s.agents a = none) :
    (e.type = "agent_start" →
      objGet (handleEvent s e).agents a = some
        { id := a, name := e.payload.agent_name, role := e.payload.role,
          status := some "running", thought := none, lastToolCall := none,
          output := none, logs := [] }) ∧
    (e.type = "agent_thinking" →
      objGet (handleEvent s e).agents a = some
        { id := a, name := some "Unknown Agent", role := some "Worker",
          status := some "thinking", thought := e.payload.thought,
          lastToolCall := none, output := none, logs := [] }) ∧
    (e.type = "tool_call" →
      objGet (handleEvent s e).agents a = some
        { id := a, name := some "Unknown Agent", role := some "Worker",
          status := some "idle", thought := none,
          lastToolCall := e.payload.tool_name, output := none,
          logs := [] }) ∧
    (e.type = "agent_complete" →
      objGet (handleEvent s e).agents a = some
        { id := a, name := some "Unknown Agent", role := some "Worker",
          status := some "success", thought := none, lastToolCall := none,
          output := e.payload.output, logs := [] }) ∧
    (e.type = "error" → ¬a = "" →
      objGet (handleEvent s e).agents a = some
        { id := a, name := some "Unknown Agent", role := some "Worker",
          status := some "failed", thought := none, lastToolCall := none,
          output := none, logs := [] }) := by
  refine ⟨?_, ?_, ?_, ?_, ?_⟩
  · intro h
    simp [handleEvent, h, hid, jsKey, updateAgent, addLog, hnew,
      objGet_objSet, defaultAgent, Agent.applyUpdate]
  · intro h
    simp [handleEvent, h, hid, jsKey, updateAgent, addLog, hnew,
      objGet_objSet, defaultAgent, Agent.applyUpdate]
  · intro h
    simp [handleEvent, h, hid, jsKey, updateAgent, addLog, hnew,
      objGet_objSet, defaultAgent, Agent.applyUpdate]
  · intro h
    simp [handleEvent, h, hid, jsKey, updateAgent, addLog, hnew,
      objGet_objSet, defaultAgent, Agent.applyUpdate]
  · intro h hne
    simp [handleEvent, h, hid, hne, truthyStr, jsKey, updateAgent, addLog,
      hnew, objGet_objSet, defaultAgent, Agent.applyUpdate]

/-- Witness for C4: a tool_call from unseen agent "a1" creates the
placeholder record with only lastToolCall filled in. -/
theorem c4_auto_create_placeholder_witness :
    objGet (handleEvent initialState toolCallEnvelope).agents "a1" = some
      { id := "a1", name := some "Unknown Agent", role := some "Worker",
        status := some "idle", thought := none,
        lastToolCall := some "search", output := none, logs := [] } :=
  (c4_auto_create_placeholder initialState toolCallEnvelope "a1" rfl
    rfl).2.2.1 rfl

/-- C5: a tool_result envelope writes each key/value pair of its
data_extracted into partialResults with last-write-wins overwrite
semantics, keys not mentioned keep their previous value, a tool_result
with no data_extracted leaves partialResults unchanged, and Scenario D
(write "topic":"A" then "topic":"B") ends with "B". -/
theorem c5_tool_result_overwrite (s : WorkflowState) (e : Envelope)
    (h : e.type = "tool_result") :
    (∀ kvs, e.payload.data_extracted = some kvs →
      ∀ k, objGet (handleEvent s e).partialResults k =
        (match lastVal kvs k with
         | some v => some v
         | none => objGet s.partialResults k)) ∧
    (e.payload.data_extracted = none →
      (handleEvent s e).partialResults = s.partialResults) ∧
    objGet (handleEvent (handleEvent initialState toolResultTopicA)
      toolResultTopicB).partialResults "topic" = some (JsValue.str "B") := by
  refine ⟨?_, ?_, ?_⟩
  · intro kvs hde k
    have hrun : handleEvent s e = applyDataExtracted (addLog s e) kvs := by
      simp [handleEvent, h, hde]
    rw [hrun, applyDataExtracted_eq, objGet_dataFold]
    have hpr : (addLog s e).partialResults = s.partialResults := rfl
    rw [hpr]
    cases lastVal kvs k <;> rfl
  · intro hde
    simp [handleEvent, h, hde, addLog]
  · decide

/-- Witness for C5 at Scenario C: writing "topic":"A" from the initial
state makes partialResults["topic"] equal to "A". -/
theorem c5_tool_result_overwrite_witness :
    objGet (handleEvent initialState toolResultTopicA).partialResults
      "topic" = some (JsValue.str "A") := by
  have hw := (c5_tool_result_overwrite initialState toolResultTopicA
    rfl).1 [("topic", JsValue.str "A")] rfl "topic"
  exact hw

/-- C7 counterexample input: an error envelope whose agent_id is present
but empty modifies no agent (the agents map stays empty), although the
claim requires the named agent's status to become "failed" for every
present agent_id. -/
theorem c7_empty_agent_id_counterexample :
    errorEmptyAgentId.payload.agent_id = some "" ∧
    (handleEvent initialState errorEmptyAgentId).agents = [] ∧
    handleEvent initialState errorEmptyAgentId =
      { initialState with logs := [errorEmptyAgentId] } := by
  refine ⟨rfl, ?_, ?_⟩ <;> decide

/-- C7 (amended): for an error envelope, the workflow status is always
left untouched; when agent_id is present and non-empty (JS-truthy) that
agent's record — existing or placeholder-created — gets status "failed"
and no other field changes; when agent_id is absent or the empty string,
the only effect is the log append. -/
theorem c7_error_event_effect (s : WorkflowState) (e : Envelope)
    (h : e.type = "error") :
    (handleEvent s e).status = s.status ∧
    ((e.payload.agent_id = none ∨ e.payload.agent_id = some "") →
      handleEvent s e = { s with logs := s.logs ++ [e] }) ∧
    (∀ a : String, e.payload.agent_id = some a → ¬a = "" →
      objGet (handleEvent s e).agents a =
        some (((objGet s.agents a).getD (defaultAgent a)).applyUpdate
          { status := some (some "failed") })) := by
  refine ⟨?_, ?_, ?_⟩
  · cases hid : e.payload.agent_id with
    | none => simp [handleEvent, h, hid, truthyStr, addLog]
    | some a =>
      by_cases ha : a = "" <;>
        simp [handleEvent, h, hid, ha, truthyStr, jsKey, updateAgent,
          addLog]
  · rintro (hid | hid) <;> simp [handleEvent, h, hid, truthyStr, addLog]
  · intro a hid hne
    simp [handleEvent, h, hid, hne, truthyStr, jsKey, updateAgent, addLog,
      objGet_objSet]

/-- Witness for C7: an error envelope naming unseen agent "a1" from the
initial state leaves the workflow status at "idle" and marks "a1"
failed. -/
theorem c7_error_event_effect_witness :
    (handleEvent initialState errorAgentA1).status = initialState.status ∧
    objGet (handleEvent initialState errorAgentA1).agents "a1" =
      some (((objGet initialState.agents "a1").getD
        (defaultAgent "a1")).applyUpdate
          { status := some (some "failed") }) :=
  ⟨(c7_error_event_effect initialState errorAgentA1 rfl).1,
    (c7_error_event_effect initialState errorAgentA1 rfl).2.2 "a1" rfl
      (by decide)⟩

/-- applyUpdate never touches the logs field of an agent. -/
theorem applyUpdate_logs (a : Agent) (u : AgentUpdate) :
    (a.applyUpdate u).logs = a.logs := rfl

/-- Reading back an objSet map yields either the written value or an old
entry. -/
theorem objGet_objSet_cases {α : Type} (m : List (String × α))
    (k a : String) (v ag : α)
    (h : objGet (objSet m k v) a = some ag) :
    ag = v ∨ objGet m a = some ag := by
  rw [objGet_objSet] at h
  by_cases hk : k = a
  · left
    rw [if_pos hk] at h
    exact (Option.some.inj h).symm
  · right
    rwa [if_neg hk] at h

/-- updateAgent preserves the all-agent-logs-empty invariant. -/
theorem updateAgent_logs_nil (s : WorkflowState)
    (hs : ∀ a ag, objGet s.agents a = some ag → ag.logs = [])
    (k : String) (u : AgentUpdate) :
    ∀ a ag, objGet (updateAgent s k u).agents a = some ag →
      ag.logs = [] := by
  intro a ag h
  simp only [updateAgent] at h
  rcases objGet_objSet_cases s.agents k a _ ag h with hv | hold
  · subst hv
    rw [applyUpdate_logs]
    cases hget : objGet s.agents k with
    | none => simp [hget, defaultAgent]
    | some ag0 => simp [hget, hs k ag0 hget]
  · exact hs a ag hold

/-- One handleEvent step preserves the all-agent-logs-empty invariant. -/
theorem handleEvent_logs_nil (s : WorkflowState) (e : Envelope)
    (hs : ∀ a ag, objGet s.agents a = some ag → ag.logs = []) :
    ∀ a ag, objGet (handleEvent s e).agents a = some ag →
      ag.logs = [] := by
  have hs' : ∀ a ag, objGet (addLog s e).agents a = some ag →
      ag.logs = [] := hs
  unfold handleEvent
  repeat' split
  all_goals
    first
      | exact updateAgent_logs_nil (addLog s e) hs' _ _
      | (intro a ag h
         apply hs a ag
         simpa [addLog, setStatus, setProgress, setResults,
           applyDataExtracted_eq] using h)

/-- C10: every agent record ever reachable by folding envelopes from the
initial state has an empty logs list — agent logs are initialized empty
(by agent_start or placeholder auto-creation) and no reducer event type
writes them. -/
theorem c10_agent_logs_empty (es : List Envelope) (a : String) (ag : Agent)
    (h : objGet (es.foldl handleEvent initialState).agents a = some ag) :
    ag.logs = [] := by
  have inv : ∀ (es : List Envelope) (s : WorkflowState),
      (∀ a ag, objGet s.agents a = some ag → ag.logs = []) →
      ∀ a ag, objGet ((es.foldl handleEvent s).agents) a = some ag →
        ag.logs = [] := by
    intro es
    induction es with
    | nil => intro s hs; exact hs
    | cons e es ih =>
      intro s hs
      exact ih (handleEvent s e) (handleEvent_logs_nil s e hs)
  refine inv es initialState ?_ a ag h
  intro a ag h
  simp [initialState, objGet] at h

/-- Witness for C10: after Scenario B's agent_start, agent "a1" exists and
its logs list is empty. -/
theorem c10_agent_logs_empty_witness :
    objGet (([agentStartEnvelope].foldl handleEvent
      initialState).agents) "a1" = some researchAgentRecord ∧
    researchAgentRecord.logs = [] := by
  refine ⟨by decide, ?_⟩
  exact c10_agent_logs_empty [agentStartEnvelope] "a1"
    researchAgentRecord (by decide)

end MetaFlow
